import Mathlib

/-! TimeAlarms: alarm table, creation entry points and servicing pass.

A shallow embedding of `TimeAlarms.h`.

* Part 1 embeds what the header itself defines: the alarm-kind enumeration, the
  kind macros, the id sentinel, the table capacity, the `AlarmHMS` macro and the
  twenty-two inline creation entry points of `TimeAlarmsClass`.
* Part 2 models the members the header only declares (`create`, `createbyte`,
  `updateNextTrigger`, `serviceAlarms`, `free`, `disable`), whose bodies live in
  `TimeAlarms.cpp`.  Those definitions follow the written specification and say
  so in their doc comments.

Conventions.  `time_t` and C `int` are modelled by `Int`: the header fixes no
width for either (`time_t` and the `SECS_PER_*` constants come from `TimeLib.h`),
so the arithmetic of the creation calls is the exact one.  Lemma
`weeklyValue_fits` records that on a 16-bit `int` / 32-bit `time_t` target no
value computed by the entry points leaves the range of `time_t`.
The creation entry points are functions of the two private members they
delegate to: `create` and `createbyte` are parameters, so every statement about
an entry point holds for whatever those members do.
-/

namespace TimeAlarms

/-! ## Part 1: definitions of the header -/

/-- Seconds values: `time_t` of `TimeLib.h`. -/
abbrev time_t := Int

/-- Alarm ids: `typedef uint8_t AlarmID_t`, a value in `0..255`. -/
abbrev AlarmID_t := Nat

/-- Conversion of an unsigned value to the 8-bit id type. -/
def toAlarmID (i : Nat) : AlarmID_t := i % 2 ^ 8

/-- Callback `void (*)()`: the address of the function, `0` for `NULL`. -/
abbrev OnTick_t := Nat

/-- Callback `void (*)(byte)`: the address of the function, `0` for `NULL`.  The
header hands `OnTick_t` arguments to `createbyte`; both types are addresses. -/
abbrev OnTickByte_t := Nat

/-- Enumeration `dtAlarmPeriod_t`; the enumerators are the integers 0..5. -/
abbrev dtAlarmPeriod_t := Nat

def dtNotAllocated : dtAlarmPeriod_t := 0
def dtTimer : dtAlarmPeriod_t := 1
def dtExplicitAlarm : dtAlarmPeriod_t := 2
def dtDailyAlarm : dtAlarmPeriod_t := 3
def dtWeeklyAlarm : dtAlarmPeriod_t := 4
def dtLastAlarmType : dtAlarmPeriod_t := 5

/-- Macro `dtIsAlarm(_type_)`. -/
def dtIsAlarm (type : Nat) : Bool :=
  decide (type ≥ dtExplicitAlarm) && decide (type < dtLastAlarmType)

/-- Macro `dtUseAbsoluteValue(_type_)`. -/
def dtUseAbsoluteValue (type : Nat) : Bool :=
  decide (type = dtTimer) || decide (type = dtExplicitAlarm)

/-- Macro `dtINVALID_ALARM_ID`. -/
def dtINVALID_ALARM_ID : AlarmID_t := 255

/-- Build targets told apart by the preprocessor when `dtNBR_ALARMS` is not
predefined. -/
inductive Target where
  | avr
  | esp8266
  | other
  deriving DecidableEq, Repr

/-- Macro `dtNBR_ALARMS`, the capacity of the table, per build target. -/
def dtNBR_ALARMS : Target → Nat
  | .avr => 6
  | .esp8266 => 20
  | .other => 12

/-- Largest capacity the header documents (`// max is 255`). -/
def maxNbrAlarms : Nat := 255

/-- Modelled from the spec: the constant `SECS_PER_MIN` of `TimeLib.h`, which is
not part of the source tree; sixty seconds. -/
def SECS_PER_MIN : time_t := 60

/-- Modelled from the spec: the constant `SECS_PER_HOUR` of `TimeLib.h`, which is
not part of the source tree; 3600 seconds. -/
def SECS_PER_HOUR : time_t := 3600

/-- Modelled from the spec: the constant `SECS_PER_DAY` of `TimeLib.h`, which is
not part of the source tree; the spec gives 86400 seconds. -/
def SECS_PER_DAY : time_t := 86400

/-- Modelled from the spec: the enumeration `timeDayOfWeek_t` of `TimeLib.h`,
which is not part of the source tree; an integer, the days of the week being
1..7. -/
abbrev timeDayOfWeek_t := Int

/-- Macro `AlarmHMS(_hr_, _min_, _sec_)`. -/
def AlarmHMS (hr min sec : Int) : time_t :=
  hr * SECS_PER_HOUR + min * SECS_PER_MIN + sec

/-- Bit field `AlarmMode_t`. -/
structure AlarmMode_t where
  alarmType : Nat
  isEnabled : Bool
  isOneShot : Bool
  deriving DecidableEq, Repr

/-- Class `AlarmClass`: one slot of the table. -/
structure AlarmClass where
  onTickHandler : OnTick_t
  onTickByteHandler : OnTickByte_t
  value : time_t
  nextTrigger : time_t
  Mode : AlarmMode_t
  param : Nat
  deriving DecidableEq, Repr

/-- Data members of `TimeAlarmsClass`: the array `Alarm[dtNBR_ALARMS]` and the
two servicing markers. -/
structure TimeAlarmsClass where
  Alarm : List AlarmClass
  isServicing : Bool
  servicedAlarmId : Nat
  deriving DecidableEq, Repr

/-- Signature of the private member `create`, acting on the table. -/
abbrev Create :=
  time_t → OnTick_t → Bool → dtAlarmPeriod_t → TimeAlarmsClass → AlarmID_t × TimeAlarmsClass

/-- Signature of the private member `createbyte`, acting on the table. -/
abbrev CreateByte :=
  time_t → OnTickByte_t → Bool → dtAlarmPeriod_t → Nat → TimeAlarmsClass →
    AlarmID_t × TimeAlarmsClass

section EntryPoints

variable (create : Create) (createbyte : CreateByte)

/-- Entry `triggerOnce(time_t, OnTick_t)`. -/
def triggerOnce (value : time_t) (onTickHandler : OnTick_t) (s : TimeAlarmsClass) :
    AlarmID_t × TimeAlarmsClass :=
  if value ≤ 0 then (dtINVALID_ALARM_ID, s)
  else create value onTickHandler true dtExplicitAlarm s

/-- Entry `triggerOnce(time_t, OnTick_t, byte)`. -/
def triggerOnceByte (value : time_t) (onTickHandler : OnTick_t) (param : Nat)
    (s : TimeAlarmsClass) : AlarmID_t × TimeAlarmsClass :=
  if value ≤ 0 then (dtINVALID_ALARM_ID, s)
  else createbyte value onTickHandler true dtExplicitAlarm param s

/-- Entry `alarmOnce(time_t, OnTick_t)`: once, at a time of day. -/
def alarmOnce (value : time_t) (onTickHandler : OnTick_t) (s : TimeAlarmsClass) :
    AlarmID_t × TimeAlarmsClass :=
  if value ≤ 0 ∨ value > SECS_PER_DAY then (dtINVALID_ALARM_ID, s)
  else create value onTickHandler true dtDailyAlarm s

/-- Entry `alarmOnce(int H, int M, int S, OnTick_t)`. -/
def alarmOnceHMS (H M S : Int) (onTickHandler : OnTick_t) (s : TimeAlarmsClass) :
    AlarmID_t × TimeAlarmsClass :=
  alarmOnce create (AlarmHMS H M S) onTickHandler s

/-- Entry `alarmOnce(time_t, OnTick_t, byte)`. -/
def alarmOnceByte (value : time_t) (onTickHandler : OnTick_t) (param : Nat)
    (s : TimeAlarmsClass) : AlarmID_t × TimeAlarmsClass :=
  if value ≤ 0 ∨ value > SECS_PER_DAY then (dtINVALID_ALARM_ID, s)
  else createbyte value onTickHandler true dtDailyAlarm param s

/-- Entry `alarmOnce(int H, int M, int S, OnTick_t, byte)`. -/
def alarmOnceHMSByte (H M S : Int) (onTickHandler : OnTick_t) (param : Nat)
    (s : TimeAlarmsClass) : AlarmID_t × TimeAlarmsClass :=
  alarmOnceByte createbyte (AlarmHMS H M S) onTickHandler param s

/-- Local `time_t value = (DOW-1) * SECS_PER_DAY + AlarmHMS(H,M,S)` of the four
weekly entry points. -/
def weeklyValue (DOW : timeDayOfWeek_t) (H M S : Int) : time_t :=
  (DOW - 1) * SECS_PER_DAY + AlarmHMS H M S

/-- Entry `alarmOnce(timeDayOfWeek_t, int H, int M, int S, OnTick_t)`: once, on
a day of the week and a time. -/
def alarmOnceDOW (DOW : timeDayOfWeek_t) (H M S : Int) (onTickHandler : OnTick_t)
    (s : TimeAlarmsClass) : AlarmID_t × TimeAlarmsClass :=
  let value : time_t := (DOW - 1) * SECS_PER_DAY + AlarmHMS H M S
  if value ≤ 0 then (dtINVALID_ALARM_ID, s)
  else create value onTickHandler true dtWeeklyAlarm s

/-- Entry `alarmOnce(timeDayOfWeek_t, int H, int M, int S, OnTick_t, byte)`. -/
def alarmOnceDOWByte (DOW : timeDayOfWeek_t) (H M S : Int) (onTickHandler : OnTick_t)
    (param : Nat) (s : TimeAlarmsClass) : AlarmID_t × TimeAlarmsClass :=
  let value : time_t := (DOW - 1) * SECS_PER_DAY + AlarmHMS H M S
  if value ≤ 0 then (dtINVALID_ALARM_ID, s)
  else createbyte value onTickHandler true dtWeeklyAlarm param s

/-- Entry `alarmRepeat(time_t, OnTick_t)`: daily, at a time of day. -/
def alarmRepeat (value : time_t) (onTickHandler : OnTick_t) (s : TimeAlarmsClass) :
    AlarmID_t × TimeAlarmsClass :=
  if value > SECS_PER_DAY then (dtINVALID_ALARM_ID, s)
  else create value onTickHandler false dtDailyAlarm s

/-- Entry `alarmRepeat(int H, int M, int S, OnTick_t)`. -/
def alarmRepeatHMS (H M S : Int) (onTickHandler : OnTick_t) (s : TimeAlarmsClass) :
    AlarmID_t × TimeAlarmsClass :=
  alarmRepeat create (AlarmHMS H M S) onTickHandler s

/-- Entry `alarmRepeat(time_t, OnTick_t, byte)`. -/
def alarmRepeatByte (value : time_t) (onTickHandler : OnTick_t) (param : Nat)
    (s : TimeAlarmsClass) : AlarmID_t × TimeAlarmsClass :=
  if value > SECS_PER_DAY then (dtINVALID_ALARM_ID, s)
  else createbyte value onTickHandler false dtDailyAlarm param s

/-- Entry `alarmRepeat(int H, int M, int S, OnTick_t, byte)`. -/
def alarmRepeatHMSByte (H M S : Int) (onTickHandler : OnTick_t) (param : Nat)
    (s : TimeAlarmsClass) : AlarmID_t × TimeAlarmsClass :=
  alarmRepeatByte createbyte (AlarmHMS H M S) onTickHandler param s

/-- Entry `alarmRepeat(timeDayOfWeek_t, int H, int M, int S, OnTick_t)`: weekly,
on a day of the week and a time. -/
def alarmRepeatDOW (DOW : timeDayOfWeek_t) (H M S : Int) (onTickHandler : OnTick_t)
    (s : TimeAlarmsClass) : AlarmID_t × TimeAlarmsClass :=
  let value : time_t := (DOW - 1) * SECS_PER_DAY + AlarmHMS H M S
  if value ≤ 0 then (dtINVALID_ALARM_ID, s)
  else create value onTickHandler false dtWeeklyAlarm s

/-- Entry `alarmRepeat(timeDayOfWeek_t, int H, int M, int S, OnTick_t, byte)`. -/
def alarmRepeatDOWByte (DOW : timeDayOfWeek_t) (H M S : Int) (onTickHandler : OnTick_t)
    (param : Nat) (s : TimeAlarmsClass) : AlarmID_t × TimeAlarmsClass :=
  let value : time_t := (DOW - 1) * SECS_PER_DAY + AlarmHMS H M S
  if value ≤ 0 then (dtINVALID_ALARM_ID, s)
  else createbyte value onTickHandler false dtWeeklyAlarm param s

/-- Entry `timerOnce(time_t, OnTick_t)`: once, after a number of seconds. -/
def timerOnce (value : time_t) (onTickHandler : OnTick_t) (s : TimeAlarmsClass) :
    AlarmID_t × TimeAlarmsClass :=
  if value ≤ 0 then (dtINVALID_ALARM_ID, s)
  else create value onTickHandler true dtTimer s

/-- Entry `timerOnce(int H, int M, int S, OnTick_t)`. -/
def timerOnceHMS (H M S : Int) (onTickHandler : OnTick_t) (s : TimeAlarmsClass) :
    AlarmID_t × TimeAlarmsClass :=
  timerOnce create (AlarmHMS H M S) onTickHandler s

/-- Entry `timerOnce(time_t, OnTickByte_t, byte)`. -/
def timerOnceByte (value : time_t) (onTickByteHandler : OnTickByte_t) (param : Nat)
    (s : TimeAlarmsClass) : AlarmID_t × TimeAlarmsClass :=
  if value ≤ 0 then (dtINVALID_ALARM_ID, s)
  else createbyte value onTickByteHandler true dtTimer param s

/-- Entry `timerOnce(int H, int M, int S, OnTick_t, byte)`. -/
def timerOnceHMSByte (H M S : Int) (onTickHandler : OnTick_t) (param : Nat)
    (s : TimeAlarmsClass) : AlarmID_t × TimeAlarmsClass :=
  timerOnceByte createbyte (AlarmHMS H M S) onTickHandler param s

/-- Entry `timerRepeat(time_t, OnTick_t)`: at a regular interval. -/
def timerRepeat (value : time_t) (onTickHandler : OnTick_t) (s : TimeAlarmsClass) :
    AlarmID_t × TimeAlarmsClass :=
  if value ≤ 0 then (dtINVALID_ALARM_ID, s)
  else create value onTickHandler false dtTimer s

/-- Entry `timerRepeat(int H, int M, int S, OnTick_t)`. -/
def timerRepeatHMS (H M S : Int) (onTickHandler : OnTick_t) (s : TimeAlarmsClass) :
    AlarmID_t × TimeAlarmsClass :=
  timerRepeat create (AlarmHMS H M S) onTickHandler s

/-- Entry `timerRepeat(time_t, OnTick_t, byte)`. -/
def timerRepeatByte (value : time_t) (onTickHandler : OnTick_t) (param : Nat)
    (s : TimeAlarmsClass) : AlarmID_t × TimeAlarmsClass :=
  if value ≤ 0 then (dtINVALID_ALARM_ID, s)
  else createbyte value onTickHandler false dtTimer param s

/-- Entry `timerRepeat(int H, int M, int S, OnTick_t, byte)`. -/
def timerRepeatHMSByte (H M S : Int) (onTickHandler : OnTick_t) (param : Nat)
    (s : TimeAlarmsClass) : AlarmID_t × TimeAlarmsClass :=
  timerRepeatByte createbyte (AlarmHMS H M S) onTickHandler param s

end EntryPoints

/-! ## Part 2: members the header declares and `TimeAlarms.cpp` defines -/

/-- Modelled from the spec: the Clock collaborator (`TimeLib`, not part of the
source tree), reduced to the two calendar queries of §4.2 and §6: the start of
the day and the start of the week that contain an epoch value. -/
structure Clock where
  startOfDay : time_t → time_t
  startOfWeek : time_t → time_t

/-- Modelled from the spec: the length of a week in seconds (`TimeLib.h`, not
part of the source tree), seven days. -/
def SECS_PER_WEEK : time_t := 7 * SECS_PER_DAY

/-- Modelled from the spec: the constructor `AlarmClass()` of `TimeAlarms.cpp`;
§3: after a restart every slot is unallocated. -/
def AlarmClass.init : AlarmClass :=
  { onTickHandler := 0, onTickByteHandler := 0, value := 0, nextTrigger := 0,
    Mode := { alarmType := dtNotAllocated, isEnabled := false, isOneShot := false },
    param := 0 }

/-- Modelled from the spec: the constructor `TimeAlarmsClass()` of
`TimeAlarms.cpp`; §3: a table of `N` unallocated slots, no alarm in flight. -/
def TimeAlarmsClass.init (N : Nat) : TimeAlarmsClass :=
  { Alarm := List.replicate N AlarmClass.init, isServicing := false,
    servicedAlarmId := dtINVALID_ALARM_ID }

/-- Modelled from the spec: the trigger computation of §4.2 against the
reference time `now` (member `updateNextTrigger` of `TimeAlarms.cpp`), as used
when a slot is allocated: interval timers count from `now`, an explicit alarm
takes its value as the absolute target, daily and weekly alarms take the next
occurrence after `now`.  A kind outside the four keeps `old`. -/
def initialTrigger (clock : Clock) (alarmType : Nat) (value now old : time_t) : time_t :=
  if alarmType = dtTimer then now + value
  else if alarmType = dtExplicitAlarm then value
  else if alarmType = dtDailyAlarm then
    if clock.startOfDay now + value ≤ now then clock.startOfDay now + SECS_PER_DAY + value
    else clock.startOfDay now + value
  else if alarmType = dtWeeklyAlarm then
    if clock.startOfWeek now + value ≤ now then clock.startOfWeek now + SECS_PER_WEEK + value
    else clock.startOfWeek now + value
  else old

/-- Modelled from the spec: member `AlarmClass::updateNextTrigger` of
`TimeAlarms.cpp`, as run after a firing (§4.2): a repeating interval timer
advances from its previous trigger, `nextTrigger = nextTrigger + value`; the
other kinds are recomputed against `now`. -/
def AlarmClass.updateNextTrigger (clock : Clock) (now : time_t) (a : AlarmClass) : AlarmClass :=
  if a.Mode.alarmType = dtTimer then { a with nextTrigger := a.nextTrigger + a.value }
  else { a with
    nextTrigger := initialTrigger clock a.Mode.alarmType a.value now a.nextTrigger }

/-- Modelled from the spec: the first-fit scan of §3/§4.1 (part of `create` in
`TimeAlarms.cpp`): the lowest index whose slot is unallocated. -/
def firstFree (s : TimeAlarmsClass) : Option Nat :=
  s.Alarm.findIdx? (fun a => decide (a.Mode.alarmType = dtNotAllocated))

/-- Modelled from the spec: private member `create` of `TimeAlarms.cpp`, §4.1
`allocate` after the range validation, which the header performs in the entry
points: take the first unallocated slot, install kind, value, one-shot flag and
the no-argument callback, compute the first trigger against `now`, enable the
slot, return its index; with no free slot return the invalid id and leave the
table as it is. -/
def create (clock : Clock) (now : time_t) : Create :=
  fun value onTickHandler isOneShot alarmType s =>
    match firstFree s with
    | none => (dtINVALID_ALARM_ID, s)
    | some id =>
      let a := s.Alarm.getD id AlarmClass.init
      (toAlarmID id,
        { s with
          Alarm := s.Alarm.set id
            { onTickHandler := onTickHandler, onTickByteHandler := 0, value := value,
              nextTrigger := initialTrigger clock (alarmType % 2 ^ 4) value now a.nextTrigger,
              Mode := { alarmType := alarmType % 2 ^ 4, isEnabled := true, isOneShot := isOneShot },
              param := a.param } })

/-- Modelled from the spec: private member `createbyte` of `TimeAlarms.cpp`:
as `create`, installing the one-byte-parameter callback and its byte. -/
def createbyte (clock : Clock) (now : time_t) : CreateByte :=
  fun value onTickByteHandler isOneShot alarmType param s =>
    match firstFree s with
    | none => (dtINVALID_ALARM_ID, s)
    | some id =>
      let a := s.Alarm.getD id AlarmClass.init
      (toAlarmID id,
        { s with
          Alarm := s.Alarm.set id
            { onTickHandler := 0, onTickByteHandler := onTickByteHandler, value := value,
              nextTrigger := initialTrigger clock (alarmType % 2 ^ 4) value now a.nextTrigger,
              Mode := { alarmType := alarmType % 2 ^ 4, isEnabled := true, isOneShot := isOneShot },
              param := param % 2 ^ 8 } })

/-- Modelled from the spec: member `free` of `TimeAlarms.cpp`, §4.1: set the
kind to unallocated; nothing happens for an id that is not allocated. -/
def free (ID : AlarmID_t) (s : TimeAlarmsClass) : TimeAlarmsClass :=
  match s.Alarm[ID]? with
  | none => s
  | some a =>
    if a.Mode.alarmType = dtNotAllocated then s
    else { s with
      Alarm := s.Alarm.set ID { a with Mode := { a.Mode with alarmType := dtNotAllocated } } }

/-- Modelled from the spec: the application's handlers (outside the source
tree): what running the function at an address does to the table.  §5: a
handler may perform any table operation. -/
structure Handlers where
  onTick : OnTick_t → TimeAlarmsClass → TimeAlarmsClass
  onTickByte : OnTickByte_t → Nat → TimeAlarmsClass → TimeAlarmsClass

/-- One invocation of a callback, as the application observes it: the slot being
serviced, the address called and the byte handed over (`none` for a handler
without argument). -/
structure Invocation where
  slot : Nat
  handler : Nat
  param : Option Nat
  deriving DecidableEq, Repr

/-- State of a servicing pass: the table and the invocations of callbacks made so
far, oldest first. -/
structure Pass where
  table : TimeAlarmsClass
  calls : List Invocation

/-- Modelled from the spec: whether a slot has a callback to invoke, the
no-argument one or the byte one (§3 `callback`). -/
def AlarmClass.hasCallback (a : AlarmClass) : Bool :=
  decide (a.onTickHandler ≠ 0) || decide (a.onTickByteHandler ≠ 0)

/-- Modelled from the spec: invocation of the callback of slot `id` (§4.3),
without argument or with the stored byte: the handler runs on the table and the
invocation is the one thing that extends the record of calls.  A slot without
callback invokes nothing. -/
def invoke (app : Handlers) (id : Nat) (a : AlarmClass) (p : Pass) : Pass :=
  if a.onTickHandler ≠ 0 then
    { table := app.onTick a.onTickHandler p.table,
      calls := p.calls ++ [{ slot := id, handler := a.onTickHandler, param := none }] }
  else if a.onTickByteHandler ≠ 0 then
    { table := app.onTickByte a.onTickByteHandler a.param p.table,
      calls := p.calls ++
        [{ slot := id, handler := a.onTickByteHandler, param := some a.param }] }
  else p

/-- Modelled from the spec: whether a slot is due at `now` (§4.3): allocated,
enabled, and its trigger time reached. -/
def AlarmClass.isDue (now : time_t) (a : AlarmClass) : Bool :=
  decide (a.Mode.alarmType ≠ dtNotAllocated) && a.Mode.isEnabled && decide (a.nextTrigger ≤ now)

/-- Modelled from the spec: what `serviceAlarms` does after the callback of slot
`id` has returned (§4.3): nothing if the callback freed the slot, free the slot
if it is one-shot, recompute its trigger otherwise. -/
def afterCallback (clock : Clock) (now : time_t) (id : Nat) (s : TimeAlarmsClass) :
    TimeAlarmsClass :=
  match s.Alarm[id]? with
  | none => s
  | some b =>
    if b.Mode.alarmType = dtNotAllocated then s
    else if b.Mode.isOneShot then free id s
    else { s with Alarm := s.Alarm.set id (b.updateNextTrigger clock now) }

/-- Modelled from the spec: the visit of one slot in a servicing pass (§4.3): a
due slot is recorded as in flight, its callback is invoked, the marker is
cleared, and the slot is freed or rescheduled. -/
def serviceSlot (clock : Clock) (app : Handlers) (now : time_t) (p : Pass) (id : Nat) : Pass :=
  match p.table.Alarm[id]? with
  | none => p
  | some a =>
    if a.isDue now then
      let p1 : Pass :=
        { p with
          table := { p.table with isServicing := true, servicedAlarmId := toAlarmID id } }
      let p2 := invoke app id a p1
      let s3 := { p2.table with isServicing := false, servicedAlarmId := dtINVALID_ALARM_ID }
      { table := afterCallback clock now id s3, calls := p2.calls }
    else p

/-- Modelled from the spec: the slots a pass visits (§4.3, §9): in index order,
those allocated when the pass starts; a slot created during the pass is not
visited. -/
def passIds (s : TimeAlarmsClass) : List Nat :=
  (List.range s.Alarm.length).filter
    (fun id => decide ((s.Alarm.getD id AlarmClass.init).Mode.alarmType ≠ dtNotAllocated))

/-- Modelled from the spec: member `serviceAlarms` of `TimeAlarms.cpp`, §4.3:
one pass over the table at time `now`. -/
def serviceAlarms (clock : Clock) (app : Handlers) (now : time_t) (p : Pass) : Pass :=
  (passIds p.table).foldl (serviceSlot clock app now) p

/-- Number of invocations of the callback of slot `id` recorded in a pass. -/
def callsOf (id : Nat) (p : Pass) : Nat := p.calls.countP (fun c => decide (c.slot = id))

/-- Modelled from the spec: member `disable` of `TimeAlarms.cpp`, §4.1: clear
`enabled` without touching the value or the trigger; nothing happens for an id
that is not allocated. -/
def disable (ID : AlarmID_t) (s : TimeAlarmsClass) : TimeAlarmsClass :=
  match s.Alarm[ID]? with
  | none => s
  | some a =>
    if a.Mode.alarmType = dtNotAllocated then s
    else { s with
      Alarm := s.Alarm.set ID { a with Mode := { a.Mode with isEnabled := false } } }

/-- A clock for evaluation: days and weeks counted from epoch 0. -/
def epochClock : Clock :=
  { startOfDay := fun t => t - t % SECS_PER_DAY,
    startOfWeek := fun t => t - t % SECS_PER_WEEK }

/-- Handlers that leave slot `id` of the table as they found it. -/
def Handlers.preserves (app : Handlers) (id : Nat) : Prop :=
  (∀ f s, (app.onTick f s).Alarm[id]? = s.Alarm[id]?) ∧
  (∀ f b s, (app.onTickByte f b s).Alarm[id]? = s.Alarm[id]?)

/-- Handlers for evaluation: no handler touches the table. -/
def idleHandlers : Handlers :=
  { onTick := fun _ s => s, onTickByte := fun _ _ s => s }

/-- The table of the example of §8: on the empty six-slot table, at time 100, a
repeating interval timer of period 5 with the handler at address 7. -/
def exampleTable : TimeAlarmsClass :=
  (timerRepeat (create epochClock 100) 5 7 (TimeAlarmsClass.init (dtNBR_ALARMS Target.avr))).2

/-- One servicing pass at `now` on table `t`, with idle handlers and an empty
record of invocations. -/
def examplePass (now : time_t) (t : TimeAlarmsClass) : Pass :=
  serviceAlarms epochClock idleHandlers now { table := t, calls := [] }

/-- The trigger time stored in slot `id`, if the table has such a slot. -/
def nextTriggerOf (id : Nat) (t : TimeAlarmsClass) : Option time_t :=
  (t.Alarm[id]?).map AlarmClass.nextTrigger

/-- The kind stored in slot `id`, if the table has such a slot. -/
def kindOf (id : Nat) (t : TimeAlarmsClass) : Option Nat :=
  (t.Alarm[id]?).map (fun a => a.Mode.alarmType)

/-- Handlers for evaluation: every no-argument handler frees the alarm being
serviced, the self-cancellation of §3. -/
def selfFreeingHandlers : Handlers :=
  { onTick := fun _ s => free s.servicedAlarmId s, onTickByte := fun _ _ s => s }

/-- A table in which every slot is allocated (no slot has kind
`dtNotAllocated`). -/
def TimeAlarmsClass.isFull (s : TimeAlarmsClass) : Bool :=
  s.Alarm.all (fun a => decide (a.Mode.alarmType ≠ dtNotAllocated))

/-- A full table for evaluation: the six-slot table after six successful
`timerRepeat(5, h)` calls at time 100, none freed. -/
def exampleFullTable : TimeAlarmsClass :=
  (List.range (dtNBR_ALARMS Target.avr)).foldl
    (fun t _ => (timerRepeat (create epochClock 100) 5 7 t).2)
    (TimeAlarmsClass.init (dtNBR_ALARMS Target.avr))

/-- A creation call, seen as a function of the member `create` it may delegate
to, is rejected before delegation: whatever `create` is and whatever the table,
it returns the invalid id and the table it was given. -/
def RejectedBeforeCreate (call : Create → TimeAlarmsClass → AlarmID_t × TimeAlarmsClass) :
    Prop :=
  ∀ (create : Create) (s : TimeAlarmsClass), call create s = (dtINVALID_ALARM_ID, s)

/-- Same as `RejectedBeforeCreate`, for a byte-parameter call and the member
`createbyte`. -/
def RejectedBeforeCreateByte
    (call : CreateByte → TimeAlarmsClass → AlarmID_t × TimeAlarmsClass) : Prop :=
  ∀ (createbyte : CreateByte) (s : TimeAlarmsClass),
    call createbyte s = (dtINVALID_ALARM_ID, s)

/-- A creation call delegates `value`, handler, one-shot flag and kind: whatever
`create` is, the call returns what `create` returns on these arguments. -/
def DelegatesToCreate (call : Create → TimeAlarmsClass → AlarmID_t × TimeAlarmsClass)
    (value : time_t) (h : OnTick_t) (isOneShot : Bool) (alarmType : dtAlarmPeriod_t) : Prop :=
  ∀ (create : Create) (s : TimeAlarmsClass),
    call create s = create value h isOneShot alarmType s

/-- Same as `DelegatesToCreate`, for a byte-parameter call and the member
`createbyte`. -/
def DelegatesToCreateByte
    (call : CreateByte → TimeAlarmsClass → AlarmID_t × TimeAlarmsClass)
    (value : time_t) (h : OnTickByte_t) (isOneShot : Bool) (alarmType : dtAlarmPeriod_t)
    (param : Nat) : Prop :=
  ∀ (createbyte : CreateByte) (s : TimeAlarmsClass),
    call createbyte s = createbyte value h isOneShot alarmType param s

/-- The pair of forms of one creation variety applies one range check: the
no-argument form is rejected before delegation exactly when the byte form is,
and when it is not rejected both forms delegate `value`, `o` and `k`. -/
def SameCheck (call : Create → TimeAlarmsClass → AlarmID_t × TimeAlarmsClass)
    (callByte : CreateByte → TimeAlarmsClass → AlarmID_t × TimeAlarmsClass)
    (value : time_t) (h : OnTick_t) (o : Bool) (k : dtAlarmPeriod_t) (param : Nat) : Prop :=
  (RejectedBeforeCreate call ↔ RejectedBeforeCreateByte callByte) ∧
  (¬ RejectedBeforeCreate call →
    DelegatesToCreate call value h o k ∧ DelegatesToCreateByte callByte value h o k param)

end TimeAlarms

namespace TimeAlarms

/-! ## Arithmetic of the creation values -/

/-- On a target with 16-bit `int` and 32-bit unsigned `time_t`, the value a
weekly entry point computes from a day 1..7 and non-negative `int` fields stays
inside `time_t`: the exact arithmetic of the model is the arithmetic of the
machine. -/
theorem weeklyValue_fits (DOW H M S : Int) (hd : 1 ≤ DOW ∧ DOW ≤ 7)
    (hH : 0 ≤ H ∧ H < 2 ^ 15) (hM : 0 ≤ M ∧ M < 2 ^ 15) (hS : 0 ≤ S ∧ S < 2 ^ 15) :
    0 ≤ AlarmHMS H M S ∧ AlarmHMS H M S ≤ weeklyValue DOW H M S ∧
      weeklyValue DOW H M S < 2 ^ 32 := by
  have e15 : (2 : Int) ^ 15 = 32768 := by norm_num
  have e32 : (2 : Int) ^ 32 = 4294967296 := by norm_num
  simp only [weeklyValue, AlarmHMS, SECS_PER_DAY, SECS_PER_HOUR, SECS_PER_MIN, e15, e32, time_t] at *
  exact ⟨by omega, by omega, by omega⟩

/-- The composed value of the claims, `H * 3600 + M * 60 + S`, is what the macro
`AlarmHMS` expands to. -/
theorem AlarmHMS_eq (H M S : Int) : AlarmHMS H M S = H * 3600 + M * 60 + S := rfl

/-- The weekly value of the claims is what the weekly entry points compute. -/
theorem weeklyValue_eq (DOW H M S : Int) :
    weeklyValue DOW H M S = (DOW - 1) * 86400 + H * 3600 + M * 60 + S := by
  simp only [weeklyValue, AlarmHMS, SECS_PER_DAY, SECS_PER_HOUR, SECS_PER_MIN]
  ring

/-! ## Range checks of the creation entry points -/

/-- C1: for every `create`/`createbyte`, table, handler, byte and every value
`≤ 0`, the calls `timerOnce`, `timerRepeat`, `triggerOnce` and their
byte-parameter forms return the invalid id 255 together with the table they
were given: the range check answers without consulting `create`. -/
theorem nonpositive_value_rejected (create : Create) (createbyte : CreateByte)
    (s : TimeAlarmsClass) (h : OnTick_t) (param : Nat) (value : time_t) (hv : value ≤ 0) :
    timerOnce create value h s = (dtINVALID_ALARM_ID, s) ∧
    timerRepeat create value h s = (dtINVALID_ALARM_ID, s) ∧
    triggerOnce create value h s = (dtINVALID_ALARM_ID, s) ∧
    timerOnceByte createbyte value h param s = (dtINVALID_ALARM_ID, s) ∧
    timerRepeatByte createbyte value h param s = (dtINVALID_ALARM_ID, s) ∧
    triggerOnceByte createbyte value h param s = (dtINVALID_ALARM_ID, s) := by
  simp [timerOnce, timerRepeat, triggerOnce, timerOnceByte, timerRepeatByte,
    triggerOnceByte, hv]

/-- Witness of C1 at value 0, on a table whose first slot is taken: all three
calls answer 255 and the table is the one passed in. -/
theorem nonpositive_value_rejected_witness :
    (0 : time_t) ≤ 0 ∧
    timerOnce (create epochClock 100) 0 7
        (timerRepeat (create epochClock 100) 5 7 (TimeAlarmsClass.init 6)).2 =
      (255, (timerRepeat (create epochClock 100) 5 7 (TimeAlarmsClass.init 6)).2) :=
  ⟨by decide,
    (nonpositive_value_rejected (create epochClock 100) (createbyte epochClock 100)
      (timerRepeat (create epochClock 100) 5 7 (TimeAlarmsClass.init 6)).2 7 0 0
      (by decide)).1⟩

/-- C2: for every `create`/`createbyte`, table, handler and every value above
86400, the daily calls `alarmOnce`, `alarmRepeat` and their byte-parameter forms
return the invalid id 255 together with the table they were given; so do the
hour/minute/second forms at 25:00:00, whose composed value is 90000. -/
theorem daily_value_above_day_rejected (create : Create) (createbyte : CreateByte)
    (s : TimeAlarmsClass) (h : OnTick_t) (param : Nat) (value : time_t)
    (hv : 86400 < value) :
    (alarmOnce create value h s = (dtINVALID_ALARM_ID, s) ∧
      alarmRepeat create value h s = (dtINVALID_ALARM_ID, s) ∧
      alarmOnceByte createbyte value h param s = (dtINVALID_ALARM_ID, s) ∧
      alarmRepeatByte createbyte value h param s = (dtINVALID_ALARM_ID, s)) ∧
    (AlarmHMS 25 0 0 = 90000 ∧
      alarmOnceHMS create 25 0 0 h s = (dtINVALID_ALARM_ID, s) ∧
      alarmRepeatHMS create 25 0 0 h s = (dtINVALID_ALARM_ID, s) ∧
      alarmOnceHMSByte createbyte 25 0 0 h param s = (dtINVALID_ALARM_ID, s) ∧
      alarmRepeatHMSByte createbyte 25 0 0 h param s = (dtINVALID_ALARM_ID, s)) := by
  have h25 : AlarmHMS 25 0 0 = 90000 := by decide
  have hv2 : value > SECS_PER_DAY := hv
  refine ⟨?_, h25, ?_⟩
  · simp [alarmOnce, alarmRepeat, alarmOnceByte, alarmRepeatByte, hv2]
  · simp [alarmOnceHMS, alarmRepeatHMS, alarmOnceHMSByte, alarmRepeatHMSByte, alarmOnce,
      alarmRepeat, alarmOnceByte, alarmRepeatByte, h25, SECS_PER_DAY]

/-- Witness of C2 at value 86401 on the empty table of six slots. -/
theorem daily_value_above_day_rejected_witness :
    (86400 : time_t) < 86401 ∧
    alarmRepeat (create epochClock 100) 86401 7 (TimeAlarmsClass.init 6) =
      (255, TimeAlarmsClass.init 6) :=
  ⟨by decide,
    (daily_value_above_day_rejected (create epochClock 100) (createbyte epochClock 100)
      (TimeAlarmsClass.init 6) 7 0 86401 (by decide)).1.2.1⟩

/-- C3, counterexample: on the empty six-slot table, with `create` as modelled in
part 2, the weekly calls for day 1 at 25:00:00 (time-of-day component 90000,
above 86400) return id 0, not the invalid id. -/
theorem weekly_hour25_counterexample :
    86400 < AlarmHMS 25 0 0 ∧
    (alarmOnceDOW (create epochClock 100) 1 25 0 0 7
      (TimeAlarmsClass.init (dtNBR_ALARMS Target.avr))).1 = 0 ∧
    (alarmRepeatDOW (create epochClock 100) 1 25 0 0 7
      (TimeAlarmsClass.init (dtNBR_ALARMS Target.avr))).1 = 0 ∧
    (0 : AlarmID_t) ≠ dtINVALID_ALARM_ID := by
  decide

/-- C3, amended: for every `create`/`createbyte`, table and day 1..7, a weekly
creation call whose time-of-day component `H*3600 + M*60 + S` exceeds 86400
passes the range check of the entry point and returns what `create` (or
`createbyte`) returns for the value `(DOW-1)*86400 + H*3600 + M*60 + S` with
kind `dtWeeklyAlarm`. -/
theorem weekly_time_of_day_delegated (create : Create) (createbyte : CreateByte)
    (s : TimeAlarmsClass) (h : OnTick_t) (param : Nat) (DOW H M S : Int)
    (hd : 1 ≤ DOW ∧ DOW ≤ 7) (ht : 86400 < H * 3600 + M * 60 + S) :
    alarmOnceDOW create DOW H M S h s =
      create ((DOW - 1) * 86400 + H * 3600 + M * 60 + S) h true dtWeeklyAlarm s ∧
    alarmRepeatDOW create DOW H M S h s =
      create ((DOW - 1) * 86400 + H * 3600 + M * 60 + S) h false dtWeeklyAlarm s ∧
    alarmOnceDOWByte createbyte DOW H M S h param s =
      createbyte ((DOW - 1) * 86400 + H * 3600 + M * 60 + S) h true dtWeeklyAlarm param s ∧
    alarmRepeatDOWByte createbyte DOW H M S h param s =
      createbyte ((DOW - 1) * 86400 + H * 3600 + M * 60 + S) h false dtWeeklyAlarm param s := by
  have hv : (DOW - 1) * SECS_PER_DAY + AlarmHMS H M S =
      (DOW - 1) * 86400 + H * 3600 + M * 60 + S := weeklyValue_eq DOW H M S
  have hpos : ¬ ((DOW - 1) * 86400 + H * 3600 + M * 60 + S ≤ 0) := by omega
  simp only [alarmOnceDOW, alarmRepeatDOW, alarmOnceDOWByte, alarmRepeatDOWByte, hv]
  simp [hpos]

/-- Witness of the amended C3: day 1 at 25:00:00 hands the value 90000 to
`create`. -/
theorem weekly_time_of_day_delegated_witness :
    ((1 : Int) ≤ 1 ∧ (1 : Int) ≤ 7) ∧ (86400 : Int) < 25 * 3600 + 0 * 60 + 0 ∧
    alarmOnceDOW (create epochClock 100) 1 25 0 0 7 (TimeAlarmsClass.init 6) =
      create epochClock 100 ((1 - 1) * 86400 + 25 * 3600 + 0 * 60 + 0) 7 true dtWeeklyAlarm
        (TimeAlarmsClass.init 6) :=
  ⟨by decide, by decide,
    (weekly_time_of_day_delegated (create epochClock 100) (createbyte epochClock 100)
      (TimeAlarmsClass.init 6) 7 0 1 25 0 0 (by decide) (by decide)).1⟩

/-- C5: for every day 1..7 and non-negative `H`, `M`, `S`, the value the weekly
entry points compute is `(DOW-1)*86400 + H*3600 + M*60 + S`, and it is the value
handed to `create`/`createbyte`: each weekly call returns the invalid id when
that value is `≤ 0` and otherwise the result of `create`/`createbyte` on exactly
that value. -/
theorem weekly_value_handed_to_create (create : Create) (createbyte : CreateByte)
    (s : TimeAlarmsClass) (h : OnTick_t) (param : Nat) (DOW H M S : Int)
    (_hd : 1 ≤ DOW ∧ DOW ≤ 7) (_hH : 0 ≤ H) (_hM : 0 ≤ M) (_hS : 0 ≤ S) :
    weeklyValue DOW H M S = (DOW - 1) * 86400 + H * 3600 + M * 60 + S ∧
    alarmOnceDOW create DOW H M S h s =
      (if (DOW - 1) * 86400 + H * 3600 + M * 60 + S ≤ 0 then (dtINVALID_ALARM_ID, s)
       else create ((DOW - 1) * 86400 + H * 3600 + M * 60 + S) h true dtWeeklyAlarm s) ∧
    alarmRepeatDOW create DOW H M S h s =
      (if (DOW - 1) * 86400 + H * 3600 + M * 60 + S ≤ 0 then (dtINVALID_ALARM_ID, s)
       else create ((DOW - 1) * 86400 + H * 3600 + M * 60 + S) h false dtWeeklyAlarm s) ∧
    alarmOnceDOWByte createbyte DOW H M S h param s =
      (if (DOW - 1) * 86400 + H * 3600 + M * 60 + S ≤ 0 then (dtINVALID_ALARM_ID, s)
       else createbyte ((DOW - 1) * 86400 + H * 3600 + M * 60 + S) h true dtWeeklyAlarm
         param s) ∧
    alarmRepeatDOWByte createbyte DOW H M S h param s =
      (if (DOW - 1) * 86400 + H * 3600 + M * 60 + S ≤ 0 then (dtINVALID_ALARM_ID, s)
       else createbyte ((DOW - 1) * 86400 + H * 3600 + M * 60 + S) h false dtWeeklyAlarm
         param s) := by
  have hv : (DOW - 1) * SECS_PER_DAY + AlarmHMS H M S =
      (DOW - 1) * 86400 + H * 3600 + M * 60 + S := weeklyValue_eq DOW H M S
  refine ⟨weeklyValue_eq DOW H M S, ?_⟩
  simp only [alarmOnceDOW, alarmRepeatDOW, alarmOnceDOWByte, alarmRepeatDOWByte, hv]
  exact ⟨trivial, trivial, trivial, trivial⟩

/-- Witness of C5: Tuesday (day 3) at 07:30:15 is the weekly value 199815. -/
theorem weekly_value_handed_to_create_witness :
    weeklyValue 3 7 30 15 = 199815 ∧
    alarmRepeatDOW (create epochClock 100) 3 7 30 15 7 (TimeAlarmsClass.init 6) =
      create epochClock 100 199815 7 false dtWeeklyAlarm (TimeAlarmsClass.init 6) :=
  ⟨(weekly_value_handed_to_create (create epochClock 100) (createbyte epochClock 100)
      (TimeAlarmsClass.init 6) 7 0 3 7 30 15 (by decide) (by decide) (by decide)
      (by decide)).1,
   (weekly_value_handed_to_create (create epochClock 100) (createbyte epochClock 100)
      (TimeAlarmsClass.init 6) 7 0 3 7 30 15 (by decide) (by decide) (by decide)
      (by decide)).2.2.1⟩

/-! ## Kinds, delegation, convenience forms, ids -/

/-- C6: for every value `t` of the 4-bit `alarmType` field (0..15), `dtIsAlarm t`
holds exactly when `t` is `dtExplicitAlarm`, `dtDailyAlarm` or `dtWeeklyAlarm`;
it fails for `dtNotAllocated`, for `dtTimer` and for every `t ≥ dtLastAlarmType`. -/
theorem dtIsAlarm_iff_time_based (t : Nat) (ht : t ≤ 15) :
    (dtIsAlarm t = true ↔ t = dtExplicitAlarm ∨ t = dtDailyAlarm ∨ t = dtWeeklyAlarm) ∧
    dtIsAlarm dtNotAllocated = false ∧ dtIsAlarm dtTimer = false ∧
    (dtLastAlarmType ≤ t → dtIsAlarm t = false) := by
  interval_cases t <;> decide

/-- Witness of C6 at the kind `dtDailyAlarm` (3). -/
theorem dtIsAlarm_iff_time_based_witness :
    dtDailyAlarm ≤ 15 ∧ dtIsAlarm dtDailyAlarm = true :=
  ⟨by decide,
    (dtIsAlarm_iff_time_based dtDailyAlarm (by decide)).1.mpr (Or.inr (Or.inl rfl))⟩

/-- C7: whenever the range check of an entry point passes, the entry point
returns exactly what `create` (`createbyte` for the byte form) returns for the
same value and handler, with the kind and one-shot flag of its name:
`triggerOnce` explicit/once, `alarmOnce` daily/once, weekly `alarmOnce`
weekly/once, `alarmRepeat` daily/repeating, weekly `alarmRepeat`
weekly/repeating, `timerOnce` timer/once, `timerRepeat` timer/repeating.  The
boundary value 86400 passes the daily check and is delegated. -/
theorem entry_points_delegate (create : Create) (createbyte : CreateByte)
    (s : TimeAlarmsClass) (h : OnTick_t) (param : Nat) (value : Int) (DOW H M S : Int) :
    (¬ value ≤ 0 →
      triggerOnce create value h s = create value h true dtExplicitAlarm s ∧
      triggerOnceByte createbyte value h param s =
        createbyte value h true dtExplicitAlarm param s ∧
      timerOnce create value h s = create value h true dtTimer s ∧
      timerOnceByte createbyte value h param s = createbyte value h true dtTimer param s ∧
      timerRepeat create value h s = create value h false dtTimer s ∧
      timerRepeatByte createbyte value h param s =
        createbyte value h false dtTimer param s) ∧
    (¬ (value ≤ 0 ∨ value > SECS_PER_DAY) →
      alarmOnce create value h s = create value h true dtDailyAlarm s ∧
      alarmOnceByte createbyte value h param s =
        createbyte value h true dtDailyAlarm param s) ∧
    (¬ value > SECS_PER_DAY →
      alarmRepeat create value h s = create value h false dtDailyAlarm s ∧
      alarmRepeatByte createbyte value h param s =
        createbyte value h false dtDailyAlarm param s) ∧
    (¬ weeklyValue DOW H M S ≤ 0 →
      alarmOnceDOW create DOW H M S h s =
        create (weeklyValue DOW H M S) h true dtWeeklyAlarm s ∧
      alarmOnceDOWByte createbyte DOW H M S h param s =
        createbyte (weeklyValue DOW H M S) h true dtWeeklyAlarm param s ∧
      alarmRepeatDOW create DOW H M S h s =
        create (weeklyValue DOW H M S) h false dtWeeklyAlarm s ∧
      alarmRepeatDOWByte createbyte DOW H M S h param s =
        createbyte (weeklyValue DOW H M S) h false dtWeeklyAlarm param s) ∧
    (alarmOnce create 86400 h s = create 86400 h true dtDailyAlarm s ∧
      alarmOnceByte createbyte 86400 h param s =
        createbyte 86400 h true dtDailyAlarm param s ∧
      alarmRepeat create 86400 h s = create 86400 h false dtDailyAlarm s ∧
      alarmRepeatByte createbyte 86400 h param s =
        createbyte 86400 h false dtDailyAlarm param s) := by
  refine ⟨?_, ?_, ?_, ?_, ?_⟩
  · intro hv
    simp [triggerOnce, triggerOnceByte, timerOnce, timerOnceByte, timerRepeat,
      timerRepeatByte, hv]
  · intro hv
    simp only [alarmOnce, alarmOnceByte, if_neg hv]
    exact ⟨trivial, trivial⟩
  · intro hv
    simp only [alarmRepeat, alarmRepeatByte, if_neg hv]
    exact ⟨trivial, trivial⟩
  · intro hv
    have hv2 : ¬ (DOW - 1) * SECS_PER_DAY + AlarmHMS H M S ≤ 0 := hv
    simp only [alarmOnceDOW, alarmOnceDOWByte, alarmRepeatDOW, alarmRepeatDOWByte,
      if_neg hv2, weeklyValue]
    exact ⟨trivial, trivial, trivial, trivial⟩
  · simp [alarmOnce, alarmOnceByte, alarmRepeat, alarmRepeatByte, SECS_PER_DAY]

/-- Witness of C7: the interval 5 passes the check of `timerRepeat`, the time of
day 43200 those of `alarmOnce` and `alarmRepeat`, and Tuesday 07:30:15 that of
the weekly calls; each call is the delegated `create`. -/
theorem entry_points_delegate_witness :
    (¬ (5 : Int) ≤ 0 ∧
      timerRepeat (create epochClock 100) 5 7 (TimeAlarmsClass.init 6) =
        create epochClock 100 5 7 false dtTimer (TimeAlarmsClass.init 6)) ∧
    (¬ ((43200 : Int) ≤ 0 ∨ (43200 : Int) > SECS_PER_DAY) ∧
      alarmOnce (create epochClock 100) 43200 7 (TimeAlarmsClass.init 6) =
        create epochClock 100 43200 7 true dtDailyAlarm (TimeAlarmsClass.init 6)) ∧
    (¬ (43200 : Int) > SECS_PER_DAY ∧
      alarmRepeat (create epochClock 100) 43200 7 (TimeAlarmsClass.init 6) =
        create epochClock 100 43200 7 false dtDailyAlarm (TimeAlarmsClass.init 6)) ∧
    (¬ weeklyValue 3 7 30 15 ≤ 0 ∧
      alarmOnceDOW (create epochClock 100) 3 7 30 15 7 (TimeAlarmsClass.init 6) =
        create epochClock 100 (weeklyValue 3 7 30 15) 7 true dtWeeklyAlarm
          (TimeAlarmsClass.init 6)) :=
  ⟨⟨by decide,
      ((entry_points_delegate (create epochClock 100) (createbyte epochClock 100)
        (TimeAlarmsClass.init 6) 7 0 5 3 7 30 15).1 (by decide)).2.2.2.2.1⟩,
   ⟨by decide,
      ((entry_points_delegate (create epochClock 100) (createbyte epochClock 100)
        (TimeAlarmsClass.init 6) 7 0 43200 3 7 30 15).2.1 (by decide)).1⟩,
   ⟨by decide,
      ((entry_points_delegate (create epochClock 100) (createbyte epochClock 100)
        (TimeAlarmsClass.init 6) 7 0 43200 3 7 30 15).2.2.1 (by decide)).1⟩,
   ⟨by decide,
      ((entry_points_delegate (create epochClock 100) (createbyte epochClock 100)
        (TimeAlarmsClass.init 6) 7 0 43200 3 7 30 15).2.2.2.1 (by decide)).1⟩⟩

/-- C8: for every `create`/`createbyte`, table and non-negative `H`, `M`, `S`,
each hour/minute/second form returns the same id and the same table as the
seconds form of the same call at the value `H*3600 + M*60 + S`, for `alarmOnce`,
`alarmRepeat`, `timerOnce`, `timerRepeat` and their byte-parameter forms. -/
theorem hms_forms_compose (create : Create) (createbyte : CreateByte)
    (s : TimeAlarmsClass) (h : OnTick_t) (param : Nat) (H M S : Int)
    (_hH : 0 ≤ H) (_hM : 0 ≤ M) (_hS : 0 ≤ S) :
    alarmOnceHMS create H M S h s = alarmOnce create (H * 3600 + M * 60 + S) h s ∧
    alarmRepeatHMS create H M S h s = alarmRepeat create (H * 3600 + M * 60 + S) h s ∧
    timerOnceHMS create H M S h s = timerOnce create (H * 3600 + M * 60 + S) h s ∧
    timerRepeatHMS create H M S h s = timerRepeat create (H * 3600 + M * 60 + S) h s ∧
    alarmOnceHMSByte createbyte H M S h param s =
      alarmOnceByte createbyte (H * 3600 + M * 60 + S) h param s ∧
    alarmRepeatHMSByte createbyte H M S h param s =
      alarmRepeatByte createbyte (H * 3600 + M * 60 + S) h param s ∧
    timerOnceHMSByte createbyte H M S h param s =
      timerOnceByte createbyte (H * 3600 + M * 60 + S) h param s ∧
    timerRepeatHMSByte createbyte H M S h param s =
      timerRepeatByte createbyte (H * 3600 + M * 60 + S) h param s := by
  simp only [alarmOnceHMS, alarmRepeatHMS, timerOnceHMS, timerRepeatHMS, alarmOnceHMSByte,
    alarmRepeatHMSByte, timerOnceHMSByte, timerRepeatHMSByte, AlarmHMS_eq]
  exact ⟨trivial, trivial, trivial, trivial, trivial, trivial, trivial, trivial⟩

/-- Witness of C8: `timerRepeat(0, 1, 30, h)` is `timerRepeat(90, h)` on the empty
table, and both allocate slot 0 with trigger `now + 90`. -/
theorem hms_forms_compose_witness :
    timerRepeatHMS (create epochClock 100) 0 1 30 7 (TimeAlarmsClass.init 6) =
      timerRepeat (create epochClock 100) (0 * 3600 + 1 * 60 + 30) 7 (TimeAlarmsClass.init 6) ∧
    (timerRepeatHMS (create epochClock 100) 0 1 30 7 (TimeAlarmsClass.init 6)).1 = 0 :=
  ⟨(hms_forms_compose (create epochClock 100) (createbyte epochClock 100)
      (TimeAlarmsClass.init 6) 7 0 0 1 30 (by decide) (by decide) (by decide)).2.2.2.1,
   by decide⟩

/-- C9: the invalid id is never a slot index.  For each built-in capacity
(6, 12, 20) and for every capacity `N` up to the documented maximum 255, every
index `0..N-1` is unchanged by conversion to the 8-bit id type and differs from
`dtINVALID_ALARM_ID`. -/
theorem slot_index_never_invalid :
    (dtNBR_ALARMS Target.avr = 6 ∧ dtNBR_ALARMS Target.other = 12 ∧
      dtNBR_ALARMS Target.esp8266 = 20) ∧
    (∀ tg : Target, ∀ i : Nat, i < dtNBR_ALARMS tg →
      toAlarmID i = i ∧ toAlarmID i ≠ dtINVALID_ALARM_ID) ∧
    (∀ N : Nat, N ≤ maxNbrAlarms → ∀ i : Nat, i < N →
      toAlarmID i = i ∧ toAlarmID i ≠ dtINVALID_ALARM_ID) := by
  have key : ∀ N : Nat, N ≤ maxNbrAlarms → ∀ i : Nat, i < N →
      toAlarmID i = i ∧ toAlarmID i ≠ dtINVALID_ALARM_ID := by
    intro N hN i hi
    simp only [maxNbrAlarms] at hN
    have hlt : i < 2 ^ 8 := by norm_num; omega
    have e : toAlarmID i = i := Nat.mod_eq_of_lt hlt
    refine ⟨e, ?_⟩
    rw [e]
    show i ≠ 255
    omega
  refine ⟨⟨rfl, rfl, rfl⟩, ?_, key⟩
  intro tg i hi
  refine key (dtNBR_ALARMS tg) ?_ i hi
  cases tg <;> decide

/-- Witness of C9: index 19, the last slot of the largest built-in table. -/
theorem slot_index_never_invalid_witness :
    19 < dtNBR_ALARMS Target.esp8266 ∧
    toAlarmID 19 = 19 ∧ toAlarmID 19 ≠ dtINVALID_ALARM_ID :=
  ⟨by decide, slot_index_never_invalid.2.1 Target.esp8266 19 (by decide)⟩

/-! ## The servicing pass -/

/-- Invoking a callback that preserves slot `id` leaves slot `id` unchanged. -/
theorem invoke_slot (app : Handlers) (id : Nat) (hp : app.preserves id) (j : Nat)
    (b : AlarmClass) (p : Pass) : (invoke app j b p).table.Alarm[id]? = p.table.Alarm[id]? := by
  unfold invoke
  split
  · exact hp.1 _ _
  · split
    · exact hp.2 _ _ _
    · rfl

/-- Invoking the callback of slot `j` records no invocation for another slot. -/
theorem invoke_calls_ne (app : Handlers) (j id : Nat) (hne : j ≠ id) (b : AlarmClass)
    (p : Pass) : callsOf id (invoke app j b p) = callsOf id p := by
  unfold invoke callsOf
  split
  · simp [List.countP_append, hne]
  · split
    · simp [List.countP_append, hne]
    · rfl

/-- Invoking the callback of a slot that has one records exactly one invocation
for that slot. -/
theorem invoke_calls_own (app : Handlers) (id : Nat) (b : AlarmClass)
    (hcb : b.hasCallback = true) (p : Pass) :
    callsOf id (invoke app id b p) = callsOf id p + 1 := by
  unfold invoke callsOf
  split
  · simp [List.countP_append]
  · split
    · simp [List.countP_append]
    · rename_i h1 h2
      simp [AlarmClass.hasCallback, h1, h2] at hcb

/-- Freeing slot `j` leaves every other slot unchanged. -/
theorem free_slot_ne (j id : Nat) (hne : j ≠ id) (s : TimeAlarmsClass) :
    (free j s).Alarm[id]? = s.Alarm[id]? := by
  unfold free
  split
  · rfl
  · split
    · rfl
    · exact List.getElem?_set_ne hne

/-- The bookkeeping after the callback of slot `j` leaves every other slot
unchanged. -/
theorem afterCallback_slot_ne (clock : Clock) (now : Int) (j id : Nat) (hne : j ≠ id)
    (s : TimeAlarmsClass) : (afterCallback clock now j s).Alarm[id]? = s.Alarm[id]? := by
  unfold afterCallback
  split
  · rfl
  · split
    · rfl
    · split
      · exact free_slot_ne j id hne s
      · exact List.getElem?_set_ne hne

/-- The visit of slot `j` leaves every other slot `id` and the number of recorded
invocations of `id` unchanged, when the handlers preserve slot `id`. -/
theorem serviceSlot_ne (clock : Clock) (app : Handlers) (now : Int) (j id : Nat)
    (hne : j ≠ id) (hp : app.preserves id) (p : Pass) :
    (serviceSlot clock app now p j).table.Alarm[id]? = p.table.Alarm[id]? ∧
    callsOf id (serviceSlot clock app now p j) = callsOf id p := by
  unfold serviceSlot
  split
  · exact ⟨rfl, rfl⟩
  · rename_i a _
    by_cases hdue : a.isDue now = true
    · simp only [hdue, if_true]
      constructor
      · rw [afterCallback_slot_ne clock now j id hne]
        exact invoke_slot app id hp j a _
      · exact invoke_calls_ne app j id hne a _
    · simp only [hdue]
      exact ⟨rfl, rfl⟩

/-- Visiting a list of slots that does not contain `id` leaves slot `id` and its
invocation count unchanged. -/
theorem foldl_serviceSlot_not_mem (clock : Clock) (app : Handlers) (now : Int) (id : Nat)
    (hp : app.preserves id) (l : List Nat) (hl : id ∉ l) (p : Pass) :
    (l.foldl (serviceSlot clock app now) p).table.Alarm[id]? = p.table.Alarm[id]? ∧
    callsOf id (l.foldl (serviceSlot clock app now) p) = callsOf id p := by
  induction l generalizing p with
  | nil => exact ⟨rfl, rfl⟩
  | cons j l ih =>
    have hj : j ≠ id := fun e => hl (e ▸ List.mem_cons_self _ _)
    have hl2 : id ∉ l := fun e => hl (List.mem_cons_of_mem _ e)
    have h1 := serviceSlot_ne clock app now j id hj hp p
    have h2 := ih hl2 (serviceSlot clock app now p j)
    simp only [List.foldl_cons]
    exact ⟨h2.1.trans h1.1, h2.2.trans h1.2⟩

/-- After the callback of a repeating interval timer that is still in its slot,
the slot holds the timer with its trigger advanced by its period. -/
theorem afterCallback_timer (clock : Clock) (now : Int) (id : Nat) (s : TimeAlarmsClass)
    (a : AlarmClass) (hslot : s.Alarm[id]? = some a) (htimer : a.Mode.alarmType = dtTimer)
    (hrep : a.Mode.isOneShot = false) :
    (afterCallback clock now id s).Alarm[id]? =
      some { a with nextTrigger := a.nextTrigger + a.value } := by
  have hlen : id < s.Alarm.length := (List.getElem?_eq_some.mp hslot).1
  have hne : ¬ a.Mode.alarmType = dtNotAllocated := by rw [htimer]; decide
  unfold afterCallback
  rw [hslot]
  simp only [hne, hrep, if_false, Bool.false_eq_true]
  rw [List.getElem?_set_self hlen]
  simp [AlarmClass.updateNextTrigger, htimer]

/-- The visit of the slot of an enabled repeating interval timer with a
callback: when due, one invocation is recorded and the trigger advances by the
period; when not due, nothing changes. -/
theorem serviceSlot_timer (clock : Clock) (app : Handlers) (now : Int) (id : Nat)
    (hp : app.preserves id) (p : Pass) (a : AlarmClass)
    (hslot : p.table.Alarm[id]? = some a) (htimer : a.Mode.alarmType = dtTimer)
    (hen : a.Mode.isEnabled = true) (hrep : a.Mode.isOneShot = false)
    (hcb : a.hasCallback = true) :
    (a.nextTrigger ≤ now →
      (serviceSlot clock app now p id).table.Alarm[id]? =
          some { a with nextTrigger := a.nextTrigger + a.value } ∧
        callsOf id (serviceSlot clock app now p id) = callsOf id p + 1) ∧
    (now < a.nextTrigger → serviceSlot clock app now p id = p) := by
  have hne : a.Mode.alarmType ≠ dtNotAllocated := by rw [htimer]; decide
  constructor
  · intro hdue
    have hd : a.isDue now = true := by simp [AlarmClass.isDue, hne, hen, hdue]
    unfold serviceSlot
    rw [hslot]
    simp only [hd, if_true]
    constructor
    · apply afterCallback_timer clock now id _ a _ htimer hrep
      show (invoke app id a _).table.Alarm[id]? = some a
      rw [invoke_slot app id hp id a]
      exact hslot
    · exact invoke_calls_own app id a hcb _
  · intro hnot
    have hd : a.isDue now = false := by
      simp only [AlarmClass.isDue, Bool.and_eq_false_iff, decide_eq_false_iff_not, not_le]
      exact Or.inr hnot
    unfold serviceSlot
    rw [hslot]
    simp [hd]

/-- A slot that holds an allocated alarm at the start of a pass is visited
exactly once by the pass. -/
theorem passIds_split (s : TimeAlarmsClass) (id : Nat) (a : AlarmClass)
    (hslot : s.Alarm[id]? = some a) (hne : a.Mode.alarmType ≠ dtNotAllocated) :
    ∃ l₁ l₂ : List Nat, passIds s = l₁ ++ id :: l₂ ∧ id ∉ l₁ ∧ id ∉ l₂ := by
  have hlen : id < s.Alarm.length := (List.getElem?_eq_some.mp hslot).1
  have hmem : id ∈ passIds s := by
    simp only [passIds, List.mem_filter, List.mem_range, List.getD_eq_getElem?_getD, hslot,
      Option.getD_some, decide_eq_true_eq]
    exact ⟨hlen, hne⟩
  have hnd : (passIds s).Nodup := (List.nodup_range _).filter _
  obtain ⟨l₁, l₂, hl⟩ := List.append_of_mem hmem
  rw [hl] at hnd
  have h2 := (List.nodup_append.mp hnd)
  refine ⟨l₁, l₂, hl, ?_, ?_⟩
  · intro h
    exact h2.2.2 h (List.mem_cons_self _ _) 
  · exact (List.nodup_cons.mp h2.2.1).1

/-- C10, amended: for every enabled repeating interval timer (period
`value > 0`) that sits in slot `id` with a callback, and every servicing pass
whose handlers leave slot `id` as they found it: a pass at `now ≥ nextTrigger`
invokes the callback of the slot exactly once and leaves the slot with
`nextTrigger + value` as its trigger (not `now + value`), however late `now` is;
a pass at `now < nextTrigger` invokes no callback of the slot and leaves the slot
as it was. -/
theorem repeating_timer_advances_from_schedule (clock : Clock) (app : Handlers) (now : Int)
    (p : Pass) (id : Nat) (a : AlarmClass)
    (hslot : p.table.Alarm[id]? = some a) (htimer : a.Mode.alarmType = dtTimer)
    (hen : a.Mode.isEnabled = true) (hrep : a.Mode.isOneShot = false)
    (hcb : a.hasCallback = true) (_hpos : 0 < a.value) (hp : app.preserves id) :
    (a.nextTrigger ≤ now →
      callsOf id (serviceAlarms clock app now p) = callsOf id p + 1 ∧
      (serviceAlarms clock app now p).table.Alarm[id]? =
        some { a with nextTrigger := a.nextTrigger + a.value }) ∧
    (now < a.nextTrigger →
      callsOf id (serviceAlarms clock app now p) = callsOf id p ∧
      (serviceAlarms clock app now p).table.Alarm[id]? = some a) := by
  have hne : a.Mode.alarmType ≠ dtNotAllocated := by rw [htimer]; decide
  obtain ⟨l₁, l₂, hl, h₁, h₂⟩ := passIds_split p.table id a hslot hne
  have hpre := foldl_serviceSlot_not_mem clock app now id hp l₁ h₁ p
  have hown := serviceSlot_timer clock app now id hp
    (l₁.foldl (serviceSlot clock app now) p) a (hpre.1.trans hslot) htimer hen hrep hcb
  have hpost := foldl_serviceSlot_not_mem clock app now id hp l₂ h₂
    (serviceSlot clock app now (l₁.foldl (serviceSlot clock app now) p) id)
  have hrun : serviceAlarms clock app now p =
      l₂.foldl (serviceSlot clock app now)
        (serviceSlot clock app now (l₁.foldl (serviceSlot clock app now) p) id) := by
    unfold serviceAlarms
    rw [hl, List.foldl_append, List.foldl_cons]
  rw [hrun]
  constructor
  · intro hdue
    obtain ⟨hs, hc⟩ := hown.1 hdue
    exact ⟨by rw [hpost.2, hc, hpre.2], hpost.1.trans hs⟩
  · intro hnot
    have hs := hown.2 hnot
    rw [hs] at hpost
    rw [hs]
    exact ⟨hpost.2.trans hpre.2, (hpost.1.trans hpre.1).trans hslot⟩

/-- Witness of the amended C10, the example of §8: a timer of period 5 created
at time 100 has trigger 105.  The pass at 105 invokes its callback once and moves
the trigger to 110; the pass at 103 invokes nothing and leaves 105; a late pass
at 117 invokes the callback once and moves the trigger to 110, not to 122.
Passes at 103, 105, 109, 110 in a row record 0, 1, 0, 1 invocations of the
handler at address 7 and leave the triggers 105, 110, 110, 115. -/
theorem repeating_timer_advances_from_schedule_witness :
    nextTriggerOf 0 exampleTable = some 105 ∧
    (callsOf 0 (examplePass 105 exampleTable) = 1 ∧
      nextTriggerOf 0 (examplePass 105 exampleTable).table = some 110) ∧
    (callsOf 0 (examplePass 103 exampleTable) = 0 ∧
      nextTriggerOf 0 (examplePass 103 exampleTable).table = some 105) ∧
    (callsOf 0 (examplePass 117 exampleTable) = 1 ∧
      nextTriggerOf 0 (examplePass 117 exampleTable).table = some 110) ∧
    ((examplePass 103 exampleTable).calls = [] ∧
      (examplePass 105 (examplePass 103 exampleTable).table).calls =
        [{ slot := 0, handler := 7, param := none }] ∧
      (examplePass 109 (examplePass 105 (examplePass 103 exampleTable).table).table).calls
        = [] ∧
      (examplePass 110 (examplePass 109 (examplePass 105
        (examplePass 103 exampleTable).table).table).table).calls =
        [{ slot := 0, handler := 7, param := none }] ∧
      nextTriggerOf 0 (examplePass 109 (examplePass 105
        (examplePass 103 exampleTable).table).table).table = some 110 ∧
      nextTriggerOf 0 (examplePass 110 (examplePass 109 (examplePass 105
        (examplePass 103 exampleTable).table).table).table).table = some 115) := by
  have hslot : exampleTable.Alarm[0]? =
      some { onTickHandler := 7, onTickByteHandler := 0, value := 5, nextTrigger := 105,
             Mode := { alarmType := dtTimer, isEnabled := true, isOneShot := false },
             param := 0 } := by decide
  have hidle : idleHandlers.preserves 0 := ⟨fun _ _ => rfl, fun _ _ _ => rfl⟩
  have key := repeating_timer_advances_from_schedule epochClock idleHandlers
  have h105 := (key 105 { table := exampleTable, calls := [] } 0 _ hslot rfl rfl rfl
    (by decide) (by decide) hidle).1 (by decide)
  have h103 := (key 103 { table := exampleTable, calls := [] } 0 _ hslot rfl rfl rfl
    (by decide) (by decide) hidle).2 (by decide)
  have h117 := (key 117 { table := exampleTable, calls := [] } 0 _ hslot rfl rfl rfl
    (by decide) (by decide) hidle).1 (by decide)
  refine ⟨by decide, ⟨h105.1, ?_⟩, ⟨h103.1, ?_⟩, ⟨h117.1, ?_⟩, by decide⟩
  · show Option.map _ (serviceAlarms _ _ _ _).table.Alarm[0]? = _
    rw [h105.2]
    rfl
  · show Option.map _ (serviceAlarms _ _ _ _).table.Alarm[0]? = _
    rw [h103.2]
    rfl
  · show Option.map _ (serviceAlarms _ _ _ _).table.Alarm[0]? = _
    rw [h117.2]
    rfl

/-- C10, counterexample: slot 0 of the example table holds a repeating interval
timer of period 5 with trigger 105, and the pass runs at 105.  (1) Once the timer
is disabled the pass invokes no callback and leaves the trigger at 105.  (2) With
a handler that frees the alarm being serviced the callback is invoked once, the
slot is left unallocated and its trigger is still 105, not 110.  (3) The same
timer created without a callback (`NULL` handler) is rescheduled to 110 with no
invocation at all. -/
theorem repeating_timer_counterexample :
    (kindOf 0 exampleTable = some dtTimer ∧ nextTriggerOf 0 exampleTable = some 105 ∧
      exampleTable.Alarm[0]?.map (fun a => (a.value, a.Mode.isOneShot)) = some (5, false)) ∧
    (nextTriggerOf 0 (disable 0 exampleTable) = some 105 ∧
      (examplePass 105 (disable 0 exampleTable)).calls = [] ∧
      nextTriggerOf 0 (examplePass 105 (disable 0 exampleTable)).table = some 105) ∧
    ((serviceAlarms epochClock selfFreeingHandlers 105
        { table := exampleTable, calls := [] }).calls =
        [{ slot := 0, handler := 7, param := none }] ∧
      kindOf 0 (serviceAlarms epochClock selfFreeingHandlers 105
        { table := exampleTable, calls := [] }).table = some dtNotAllocated ∧
      nextTriggerOf 0 (serviceAlarms epochClock selfFreeingHandlers 105
        { table := exampleTable, calls := [] }).table = some 105) ∧
    ((examplePass 105 (timerRepeat (create epochClock 100) 5 0
        (TimeAlarmsClass.init (dtNBR_ALARMS Target.avr))).2).calls = [] ∧
      nextTriggerOf 0 (examplePass 105 (timerRepeat (create epochClock 100) 5 0
        (TimeAlarmsClass.init (dtNBR_ALARMS Target.avr))).2).table = some 110) := by
  decide

/-! ## Allocation into a full table -/

/-- The first-fit scan finds nothing in a full table. -/
theorem firstFree_full (s : TimeAlarmsClass) (hfull : s.isFull = true) : firstFree s = none := by
  unfold firstFree
  rw [List.findIdx?_eq_none_iff]
  intro x hx
  have h := List.all_eq_true.mp hfull x hx
  simpa using h

/-- On a full table `create` returns the invalid id and the table it was given. -/
theorem create_full (clock : Clock) (now : Int) (s : TimeAlarmsClass)
    (hfull : s.isFull = true) (value : Int) (h : OnTick_t) (o : Bool) (k : Nat) :
    create clock now value h o k s = (dtINVALID_ALARM_ID, s) := by
  simp only [create, firstFree_full s hfull]

/-- On a full table `createbyte` returns the invalid id and the table it was
given. -/
theorem createbyte_full (clock : Clock) (now : Int) (s : TimeAlarmsClass)
    (hfull : s.isFull = true) (value : Int) (h : OnTickByte_t) (o : Bool) (k : Nat)
    (param : Nat) :
    createbyte clock now value h o k param s = (dtINVALID_ALARM_ID, s) := by
  simp only [createbyte, firstFree_full s hfull]

/-- C11: for every table in which all slots are allocated, every clock and time,
and every creation call (in range or not), with `create`/`createbyte` as
modelled: the call returns the invalid id 255 and the table after the call is
the table before it, so no slot's kind, flags, value, trigger or callback
changes.  All twenty-two entry points are covered. -/
theorem full_table_creation_fails (clock : Clock) (now : Int) (s : TimeAlarmsClass)
    (hfull : s.isFull = true) (h : OnTick_t) (param : Nat) (value : Int)
    (DOW H M S : Int) :
    (triggerOnce (create clock now) value h s = (dtINVALID_ALARM_ID, s) ∧
      triggerOnceByte (createbyte clock now) value h param s = (dtINVALID_ALARM_ID, s)) ∧
    (alarmOnce (create clock now) value h s = (dtINVALID_ALARM_ID, s) ∧
      alarmOnceByte (createbyte clock now) value h param s = (dtINVALID_ALARM_ID, s) ∧
      alarmOnceHMS (create clock now) H M S h s = (dtINVALID_ALARM_ID, s) ∧
      alarmOnceHMSByte (createbyte clock now) H M S h param s = (dtINVALID_ALARM_ID, s)) ∧
    (alarmOnceDOW (create clock now) DOW H M S h s = (dtINVALID_ALARM_ID, s) ∧
      alarmOnceDOWByte (createbyte clock now) DOW H M S h param s =
        (dtINVALID_ALARM_ID, s)) ∧
    (alarmRepeat (create clock now) value h s = (dtINVALID_ALARM_ID, s) ∧
      alarmRepeatByte (createbyte clock now) value h param s = (dtINVALID_ALARM_ID, s) ∧
      alarmRepeatHMS (create clock now) H M S h s = (dtINVALID_ALARM_ID, s) ∧
      alarmRepeatHMSByte (createbyte clock now) H M S h param s =
        (dtINVALID_ALARM_ID, s)) ∧
    (alarmRepeatDOW (create clock now) DOW H M S h s = (dtINVALID_ALARM_ID, s) ∧
      alarmRepeatDOWByte (createbyte clock now) DOW H M S h param s =
        (dtINVALID_ALARM_ID, s)) ∧
    (timerOnce (create clock now) value h s = (dtINVALID_ALARM_ID, s) ∧
      timerOnceByte (createbyte clock now) value h param s = (dtINVALID_ALARM_ID, s) ∧
      timerOnceHMS (create clock now) H M S h s = (dtINVALID_ALARM_ID, s) ∧
      timerOnceHMSByte (createbyte clock now) H M S h param s = (dtINVALID_ALARM_ID, s)) ∧
    (timerRepeat (create clock now) value h s = (dtINVALID_ALARM_ID, s) ∧
      timerRepeatByte (createbyte clock now) value h param s = (dtINVALID_ALARM_ID, s) ∧
      timerRepeatHMS (create clock now) H M S h s = (dtINVALID_ALARM_ID, s) ∧
      timerRepeatHMSByte (createbyte clock now) H M S h param s =
        (dtINVALID_ALARM_ID, s)) := by
  have hc := create_full clock now s hfull
  have hb := createbyte_full clock now s hfull
  simp only [triggerOnce, triggerOnceByte, alarmOnce, alarmOnceByte, alarmOnceHMS,
    alarmOnceHMSByte, alarmOnceDOW, alarmOnceDOWByte, alarmRepeat, alarmRepeatByte,
    alarmRepeatHMS, alarmRepeatHMSByte, alarmRepeatDOW, alarmRepeatDOWByte, timerOnce,
    timerOnceByte, timerOnceHMS, timerOnceHMSByte, timerRepeat, timerRepeatByte,
    timerRepeatHMS, timerRepeatHMSByte, hc, hb, ite_self, and_self]

/-- Witness of C11: after six successful allocations the six-slot table is full;
the in-range calls `alarmRepeat(43200, h)` and `timerOnce(10, h)` at time 200
return 255 and the table they were given. -/
theorem full_table_creation_fails_witness :
    exampleFullTable.isFull = true ∧ exampleFullTable.Alarm.length = 6 ∧
    alarmRepeat (create epochClock 200) 43200 7 exampleFullTable =
      (255, exampleFullTable) ∧
    timerOnce (create epochClock 200) 10 7 exampleFullTable = (255, exampleFullTable) :=
  ⟨by decide, by decide,
    (full_table_creation_fails epochClock 200 exampleFullTable (by decide) 7 0 43200
      1 0 0 0).2.2.2.1.1,
    (full_table_creation_fails epochClock 200 exampleFullTable (by decide) 7 0 10
      1 0 0 0).2.2.2.2.2.1.1⟩

/-! ## The range check, seen from outside -/

/-- A guarded delegation to `create` is rejected before delegation exactly when
its guard holds. -/
theorem rejected_guard_iff (guard : Prop) [Decidable guard] (value : Int) (h : OnTick_t)
    (o : Bool) (k : Nat) :
    RejectedBeforeCreate
      (fun c s => if guard then (dtINVALID_ALARM_ID, s) else c value h o k s) ↔ guard := by
  constructor
  · intro hrej
    by_contra hg
    have h0 := hrej (fun _ _ _ _ s => (0, s)) (TimeAlarmsClass.init 0)
    simp only [if_neg hg, Prod.mk.injEq] at h0
    exact absurd h0.1 (by decide)
  · intro hg c s
    simp only [if_pos hg]

/-- A guarded delegation to `createbyte` is rejected before delegation exactly
when its guard holds. -/
theorem rejectedByte_guard_iff (guard : Prop) [Decidable guard] (value : Int)
    (h : OnTickByte_t) (o : Bool) (k : Nat) (param : Nat) :
    RejectedBeforeCreateByte
      (fun c s => if guard then (dtINVALID_ALARM_ID, s) else c value h o k param s) ↔
      guard := by
  constructor
  · intro hrej
    by_contra hg
    have h0 := hrej (fun _ _ _ _ _ s => (0, s)) (TimeAlarmsClass.init 0)
    simp only [if_neg hg, Prod.mk.injEq] at h0
    exact absurd h0.1 (by decide)
  · intro hg c s
    simp only [if_pos hg]

/-- A guarded delegation to `create` whose guard fails delegates its arguments. -/
theorem delegates_of_not_guard (guard : Prop) [Decidable guard] (hg : ¬ guard)
    (value : Int) (h : OnTick_t) (o : Bool) (k : Nat) :
    DelegatesToCreate
      (fun c s => if guard then (dtINVALID_ALARM_ID, s) else c value h o k s)
      value h o k := by
  intro c s
  simp only [if_neg hg]

/-- A guarded delegation to `createbyte` whose guard fails delegates its
arguments. -/
theorem delegatesByte_of_not_guard (guard : Prop) [Decidable guard] (hg : ¬ guard)
    (value : Int) (h : OnTickByte_t) (o : Bool) (k : Nat) (param : Nat) :
    DelegatesToCreateByte
      (fun c s => if guard then (dtINVALID_ALARM_ID, s) else c value h o k param s)
      value h o k param := by
  intro c s
  simp only [if_neg hg]

/-- Two guarded delegations with one guard and the same arguments apply the same
check. -/
theorem sameCheck_of_guard (guard : Prop) [Decidable guard] (value : Int) (h : OnTick_t)
    (o : Bool) (k : Nat) (param : Nat) :
    SameCheck (fun c s => if guard then (dtINVALID_ALARM_ID, s) else c value h o k s)
      (fun c s => if guard then (dtINVALID_ALARM_ID, s) else c value h o k param s)
      value h o k param := by
  refine ⟨?_, ?_⟩
  · rw [rejected_guard_iff, rejectedByte_guard_iff]
  · intro hrej
    have hg : ¬ guard := fun g => hrej ((rejected_guard_iff guard value h o k).mpr g)
    exact ⟨delegates_of_not_guard guard hg value h o k,
      delegatesByte_of_not_guard guard hg value h o k param⟩

/-- C12: for each of the seven creation varieties and every value (or `DOW`, `H`,
`M`, `S`), the no-argument form and the byte-parameter form apply the same range
check: one is rejected with the invalid id before delegation if and only if the
other is, and when accepted both delegate the same value, kind and one-shot
flag. -/
theorem both_forms_same_range_check (h : OnTick_t) (param : Nat) (value : Int)
    (DOW H M S : Int) :
    SameCheck (fun c s => triggerOnce c value h s)
      (fun c s => triggerOnceByte c value h param s) value h true dtExplicitAlarm param ∧
    SameCheck (fun c s => alarmOnce c value h s)
      (fun c s => alarmOnceByte c value h param s) value h true dtDailyAlarm param ∧
    SameCheck (fun c s => alarmOnceDOW c DOW H M S h s)
      (fun c s => alarmOnceDOWByte c DOW H M S h param s)
      (weeklyValue DOW H M S) h true dtWeeklyAlarm param ∧
    SameCheck (fun c s => alarmRepeat c value h s)
      (fun c s => alarmRepeatByte c value h param s) value h false dtDailyAlarm param ∧
    SameCheck (fun c s => alarmRepeatDOW c DOW H M S h s)
      (fun c s => alarmRepeatDOWByte c DOW H M S h param s)
      (weeklyValue DOW H M S) h false dtWeeklyAlarm param ∧
    SameCheck (fun c s => timerOnce c value h s)
      (fun c s => timerOnceByte c value h param s) value h true dtTimer param ∧
    SameCheck (fun c s => timerRepeat c value h s)
      (fun c s => timerRepeatByte c value h param s) value h false dtTimer param :=
  ⟨sameCheck_of_guard (value ≤ 0) value h true dtExplicitAlarm param,
   sameCheck_of_guard (value ≤ 0 ∨ value > SECS_PER_DAY) value h true dtDailyAlarm param,
   sameCheck_of_guard (weeklyValue DOW H M S ≤ 0) (weeklyValue DOW H M S) h true
     dtWeeklyAlarm param,
   sameCheck_of_guard (value > SECS_PER_DAY) value h false dtDailyAlarm param,
   sameCheck_of_guard (weeklyValue DOW H M S ≤ 0) (weeklyValue DOW H M S) h false
     dtWeeklyAlarm param,
   sameCheck_of_guard (value ≤ 0) value h true dtTimer param,
   sameCheck_of_guard (value ≤ 0) value h false dtTimer param⟩

/-- Witness of C12: the interval 0 is rejected by `timerRepeat` and by its byte
form alike; the interval 5 is accepted by both, and both delegate value 5, kind
`dtTimer`, repeating. -/
theorem both_forms_same_range_check_witness :
    (timerRepeat (create epochClock 100) 0 7 (TimeAlarmsClass.init 6) =
        (255, TimeAlarmsClass.init 6) ∧
      timerRepeatByte (createbyte epochClock 100) 0 7 9 (TimeAlarmsClass.init 6) =
        (255, TimeAlarmsClass.init 6)) ∧
    (timerRepeat (create epochClock 100) 5 7 (TimeAlarmsClass.init 6) =
        create epochClock 100 5 7 false dtTimer (TimeAlarmsClass.init 6) ∧
      timerRepeatByte (createbyte epochClock 100) 5 7 9 (TimeAlarmsClass.init 6) =
        createbyte epochClock 100 5 7 false dtTimer 9 (TimeAlarmsClass.init 6)) := by
  have h0 := (both_forms_same_range_check 7 9 0 1 0 0 0).2.2.2.2.2.2
  have h5 := (both_forms_same_range_check 7 9 5 1 0 0 0).2.2.2.2.2.2
  have r0 : RejectedBeforeCreate (fun c s => timerRepeat c 0 7 s) :=
    (rejected_guard_iff ((0 : Int) ≤ 0) 0 7 false dtTimer).mpr (by decide)
  have n5 : ¬ RejectedBeforeCreate (fun c s => timerRepeat c 5 7 s) :=
    fun r => absurd ((rejected_guard_iff ((5 : Int) ≤ 0) 5 7 false dtTimer).mp r) (by decide)
  exact ⟨⟨r0 _ _, h0.1.mp r0 _ _⟩, ⟨(h5.2 n5).1 _ _, (h5.2 n5).2 _ _⟩⟩

/-- For a day 1..7 and non-negative fields the weekly value is `≤ 0` exactly at
day 1, 00:00:00. -/
theorem weeklyValue_nonpos_iff (DOW H M S : Int) (hd : 1 ≤ DOW ∧ DOW ≤ 7) (hH : 0 ≤ H)
    (hM : 0 ≤ M) (hS : 0 ≤ S) :
    weeklyValue DOW H M S ≤ 0 ↔ DOW = 1 ∧ H = 0 ∧ M = 0 ∧ S = 0 := by
  rw [weeklyValue_eq]
  constructor
  · intro h
    have h2 : (DOW - 1) * 86400 + H * 3600 + M * 60 + S ≤ (0 : Int) := h
    exact ⟨by omega, by omega, by omega, by omega⟩
  · rintro ⟨rfl, rfl, rfl, rfl⟩
    decide

/-- C13: for every day 1..7 and non-negative `H`, `M`, `S`, with no upper bound on
the fields, each of the four weekly creation calls is rejected by its own range
check if and only if `DOW = 1` and `H = M = S = 0`; in every other case
(00:00:00 on days 2..7, out-of-range clock fields) the call hands the weekly
value to `create`/`createbyte`. -/
theorem weekly_rejected_iff_week_start (h : OnTick_t) (param : Nat) (DOW H M S : Int)
    (hd : 1 ≤ DOW ∧ DOW ≤ 7) (hH : 0 ≤ H) (hM : 0 ≤ M) (hS : 0 ≤ S) :
    ((RejectedBeforeCreate (fun c s => alarmOnceDOW c DOW H M S h s) ↔
        DOW = 1 ∧ H = 0 ∧ M = 0 ∧ S = 0) ∧
      (RejectedBeforeCreate (fun c s => alarmRepeatDOW c DOW H M S h s) ↔
        DOW = 1 ∧ H = 0 ∧ M = 0 ∧ S = 0) ∧
      (RejectedBeforeCreateByte (fun c s => alarmOnceDOWByte c DOW H M S h param s) ↔
        DOW = 1 ∧ H = 0 ∧ M = 0 ∧ S = 0) ∧
      (RejectedBeforeCreateByte (fun c s => alarmRepeatDOWByte c DOW H M S h param s) ↔
        DOW = 1 ∧ H = 0 ∧ M = 0 ∧ S = 0)) ∧
    (¬ (DOW = 1 ∧ H = 0 ∧ M = 0 ∧ S = 0) →
      DelegatesToCreate (fun c s => alarmOnceDOW c DOW H M S h s)
        ((DOW - 1) * 86400 + H * 3600 + M * 60 + S) h true dtWeeklyAlarm ∧
      DelegatesToCreate (fun c s => alarmRepeatDOW c DOW H M S h s)
        ((DOW - 1) * 86400 + H * 3600 + M * 60 + S) h false dtWeeklyAlarm ∧
      DelegatesToCreateByte (fun c s => alarmOnceDOWByte c DOW H M S h param s)
        ((DOW - 1) * 86400 + H * 3600 + M * 60 + S) h true dtWeeklyAlarm param ∧
      DelegatesToCreateByte (fun c s => alarmRepeatDOWByte c DOW H M S h param s)
        ((DOW - 1) * 86400 + H * 3600 + M * 60 + S) h false dtWeeklyAlarm param) := by
  have hz := weeklyValue_nonpos_iff DOW H M S hd hH hM hS
  have hv := weeklyValue_eq DOW H M S
  refine ⟨⟨?_, ?_, ?_, ?_⟩, ?_⟩
  · exact (rejected_guard_iff (weeklyValue DOW H M S ≤ 0) (weeklyValue DOW H M S) h true
      dtWeeklyAlarm).trans hz
  · exact (rejected_guard_iff (weeklyValue DOW H M S ≤ 0) (weeklyValue DOW H M S) h false
      dtWeeklyAlarm).trans hz
  · exact (rejectedByte_guard_iff (weeklyValue DOW H M S ≤ 0) (weeklyValue DOW H M S) h true
      dtWeeklyAlarm param).trans hz
  · exact (rejectedByte_guard_iff (weeklyValue DOW H M S ≤ 0) (weeklyValue DOW H M S) h false
      dtWeeklyAlarm param).trans hz
  · intro hne
    have hg : ¬ weeklyValue DOW H M S ≤ 0 := fun g => hne (hz.mp g)
    rw [← hv]
    exact ⟨delegates_of_not_guard _ hg _ h true dtWeeklyAlarm,
      delegates_of_not_guard _ hg _ h false dtWeeklyAlarm,
      delegatesByte_of_not_guard _ hg _ h true dtWeeklyAlarm param,
      delegatesByte_of_not_guard _ hg _ h false dtWeeklyAlarm param⟩

/-- Witness of C13: day 1 at 00:00:00 is rejected (invalid id, table unchanged);
day 2 at 00:00:00 and day 1 at 25:61:61 are handed to `create` as the values
86400 and 93721. -/
theorem weekly_rejected_iff_week_start_witness :
    alarmOnceDOW (create epochClock 100) 1 0 0 0 7 (TimeAlarmsClass.init 6) =
      (255, TimeAlarmsClass.init 6) ∧
    alarmOnceDOW (create epochClock 100) 2 0 0 0 7 (TimeAlarmsClass.init 6) =
      create epochClock 100 ((2 - 1) * 86400 + 0 * 3600 + 0 * 60 + 0) 7 true dtWeeklyAlarm
        (TimeAlarmsClass.init 6) ∧
    alarmRepeatDOW (create epochClock 100) 1 25 61 61 7 (TimeAlarmsClass.init 6) =
      create epochClock 100 ((1 - 1) * 86400 + 25 * 3600 + 61 * 60 + 61) 7 false dtWeeklyAlarm
        (TimeAlarmsClass.init 6) :=
  ⟨((weekly_rejected_iff_week_start 7 0 1 0 0 0 (by decide) (by decide) (by decide)
      (by decide)).1.1.mpr (by decide)) _ _,
   ((weekly_rejected_iff_week_start 7 0 2 0 0 0 (by decide) (by decide) (by decide)
      (by decide)).2 (by decide)).1 _ _,
   ((weekly_rejected_iff_week_start 7 0 1 25 61 61 (by decide) (by decide) (by decide)
      (by decide)).2 (by decide)).2.1 _ _⟩

/-- C14: on valid inputs (days 1..7, hours 0..23, minutes and seconds 0..59) the
weekly value `(DOW-1)*86400 + AlarmHMS(H,M,S)` is below 604800, one week, and two
inputs with the same weekly value have the same day, hour, minute and second. -/
theorem weekly_encoding_injective_bounded (DOW H M S DOW2 H2 M2 S2 : Int)
    (hd : 1 ≤ DOW ∧ DOW ≤ 7) (hH : 0 ≤ H ∧ H ≤ 23) (hM : 0 ≤ M ∧ M ≤ 59)
    (hS : 0 ≤ S ∧ S ≤ 59) (_hd2 : 1 ≤ DOW2 ∧ DOW2 ≤ 7) (hH2 : 0 ≤ H2 ∧ H2 ≤ 23)
    (hM2 : 0 ≤ M2 ∧ M2 ≤ 59) (hS2 : 0 ≤ S2 ∧ S2 ≤ 59) :
    weeklyValue DOW H M S = (DOW - 1) * 86400 + AlarmHMS H M S ∧
    weeklyValue DOW H M S < 604800 ∧
    (weeklyValue DOW H M S = weeklyValue DOW2 H2 M2 S2 →
      DOW = DOW2 ∧ H = H2 ∧ M = M2 ∧ S = S2) := by
  refine ⟨rfl, ?_, ?_⟩
  · rw [weeklyValue_eq]
    show (DOW - 1) * 86400 + H * 3600 + M * 60 + S < (604800 : Int)
    omega
  · rw [weeklyValue_eq, weeklyValue_eq]
    intro he
    have he2 : (DOW - 1) * 86400 + H * 3600 + M * 60 + S =
        ((DOW2 - 1) * 86400 + H2 * 3600 + M2 * 60 + S2 : Int) := he
    exact ⟨by omega, by omega, by omega, by omega⟩

/-- Witness of C14: Saturday (day 7) at 23:59:59 is the value 604799, the last
second of the week. -/
theorem weekly_encoding_injective_bounded_witness :
    weeklyValue 7 23 59 59 = 604799 ∧ weeklyValue 7 23 59 59 < 604800 :=
  ⟨by decide,
    (weekly_encoding_injective_bounded 7 23 59 59 1 0 0 0 (by decide) (by decide) (by decide)
      (by decide) (by decide) (by decide) (by decide) (by decide)).2.1⟩

/-- C15: over the values `t` of the 4-bit `alarmType` field (0..15), the two kind
macros agree with the enumeration: `dtNotAllocated` and every `t ≥ dtLastAlarmType`
satisfy neither `dtIsAlarm` nor `dtUseAbsoluteValue`; each of `dtTimer`,
`dtExplicitAlarm`, `dtDailyAlarm`, `dtWeeklyAlarm` satisfies at least one; and
`dtExplicitAlarm` is the only value that satisfies both. -/
theorem kind_predicates_consistent (t : Nat) (ht : t ≤ 15) :
    (dtIsAlarm dtNotAllocated = false ∧ dtUseAbsoluteValue dtNotAllocated = false) ∧
    (dtLastAlarmType ≤ t → dtIsAlarm t = false ∧ dtUseAbsoluteValue t = false) ∧
    ((dtIsAlarm dtTimer = true ∨ dtUseAbsoluteValue dtTimer = true) ∧
      (dtIsAlarm dtExplicitAlarm = true ∨ dtUseAbsoluteValue dtExplicitAlarm = true) ∧
      (dtIsAlarm dtDailyAlarm = true ∨ dtUseAbsoluteValue dtDailyAlarm = true) ∧
      (dtIsAlarm dtWeeklyAlarm = true ∨ dtUseAbsoluteValue dtWeeklyAlarm = true)) ∧
    ((dtIsAlarm t = true ∧ dtUseAbsoluteValue t = true) ↔ t = dtExplicitAlarm) := by
  interval_cases t <;> decide

/-- Witness of C15 at the largest field value 15: neither macro holds. -/
theorem kind_predicates_consistent_witness :
    dtLastAlarmType ≤ 15 ∧ dtIsAlarm 15 = false ∧ dtUseAbsoluteValue 15 = false :=
  ⟨by decide, (kind_predicates_consistent 15 (by decide)).2.1 (by decide)⟩

/-! ## The lower bound of the daily range, on the header alone -/

end TimeAlarms
